import Mathlib

/-!
# Deployment script `deploy.js`

A shallow embedding of `src/deploy/deploy.js`.  The script is a linear
asynchronous sequence over three external collaborators supplied by Hardhat
(`ethers.getSigners`, `ethers.getContractFactory`, `ContractFactory.deploy`),
two console streams and `process.exit`.  The collaborators are modelled by
their settled outcomes, the script by the trace of observable events it
produces on those outcomes.  Loading the `hardhat` module (line 1) is taken to
succeed, and every awaited promise to settle.
-/

namespace Deploy

/-! ## Data model -/

/-- A value thrown by the JavaScript runtime or delivered by a rejected promise. -/
inductive JsError where
  /-- The reason an external collaborator rejected its promise with. -/
  | rejection (reason : String)
  /-- The runtime error "TypeError: Cannot read properties of undefined":
  a property was read from `undefined`. -/
  | typeErrorUndefined (property : String)
  deriving DecidableEq, Repr

/-- An account returned by `ethers.getSigners()`; only `.address` is read. -/
structure Signer where
  address : String
  deriving DecidableEq, Repr

/-- The contract object returned by `deploy()`; only `.address` is read.
`mined` is the state of the deployment transaction at the moment the promise
of `deploy()` is fulfilled: ethers 5 fulfils that promise once the transaction
is sent, with the address the contract will have, and the transaction may by
then be mined (confirmed) or still pending. -/
structure Contract where
  address : String
  mined : Bool
  deriving DecidableEq, Repr

/-- The factory returned by `ethers.getContractFactory(name)`: the settled
outcome of the promise its `deploy()` returns. -/
structure ContractFactory where
  deploy : Except JsError Contract

/-- The `ethers` object of Hardhat as the script uses it: the settled outcome
of `getSigners()` and, per contract name, of `getContractFactory(name)`. -/
structure Ethers where
  getSigners : Except JsError (List Signer)
  getContractFactory : String → Except JsError ContractFactory

/-- The calls the script makes on its external collaborators. -/
inductive Call where
  | getSigners
  | getContractFactory (name : String)
  | deploy
  deriving DecidableEq, Repr

/-- The local variables whose `.address` the script reads. -/
inductive Holder where
  | deployer
  | catDAO
  deriving DecidableEq, Repr

/-- Observable events of one run, in program order. -/
inductive Event where
  /-- The script calls a collaborator and starts awaiting its promise. -/
  | call (c : Call)
  /-- The awaited promise is fulfilled and the script resumes. -/
  | fulfilled (c : Call)
  /-- The awaited promise is rejected; the `await` throws. -/
  | rejected (c : Call)
  /-- The expression `h.address` is evaluated to a value. -/
  | getAddress (h : Holder)
  /-- One `console.log` call: the text of the line written to standard output. -/
  | stdout (line : String)
  /-- One `console.error` call: the value written to standard error. -/
  | stderr (e : JsError)
  /-- A call `process.exit(code)`. -/
  | exit (code : Nat)
  deriving DecidableEq, Repr

/-- How a piece of code ends. -/
inductive Completion (α : Type) where
  /-- Normal completion (for an async function: its promise is fulfilled). -/
  | value (a : α)
  /-- A throw (for an async function: its promise is rejected). -/
  | thrown (e : JsError)
  /-- The process was ended by `process.exit`; nothing runs afterwards. -/
  | exited
  deriving DecidableEq, Repr

/-- A piece of code run to its end: the events it produced and how it ended. -/
structure Run (α : Type) where
  trace : List Event
  result : Completion α

/-- Sequencing of statements, and `promise.then(f)`: the continuation runs only
after a normal completion; a throw or a process exit skips it. -/
def Run.then_ {α β : Type} (p : Run α) (f : α → Run β) : Run β :=
  match p.result with
  | .value a => ⟨p.trace ++ (f a).trace, (f a).result⟩
  | .thrown e => ⟨p.trace, .thrown e⟩
  | .exited => ⟨p.trace, .exited⟩

/-- The handler of `promise.catch(h)`: it runs only after a throw. -/
def Run.catch_ {α : Type} (p : Run α) (h : JsError → Run α) : Run α :=
  match p.result with
  | .thrown e => ⟨p.trace ++ (h e).trace, (h e).result⟩
  | .value a => ⟨p.trace, .value a⟩
  | .exited => ⟨p.trace, .exited⟩

instance : Monad Run where
  pure a := ⟨[], .value a⟩
  bind p f := p.then_ f

/-! ## Primitive operations -/

/-- The expression `await c(..)` for a collaborator call whose promise settles
with `outcome`. -/
def await {α : Type} (c : Call) (outcome : Except JsError α) : Run α :=
  match outcome with
  | .ok a => ⟨[.call c, .fulfilled c], .value a⟩
  | .error e => ⟨[.call c, .rejected c], .thrown e⟩

/-- The expression `h.address`, where `obj` is the address of the object held
by `h`, or `none` when `h` is `undefined`. -/
def address (h : Holder) (obj : Option String) : Run String :=
  match obj with
  | some a => ⟨[.getAddress h], .value a⟩
  | none => ⟨[], .thrown (.typeErrorUndefined "address")⟩

/-- The call `console.log(label, arg)` with two strings, the first without a
format specifier: one line, the arguments separated by a blank. -/
def consoleLog (label arg : String) : Run Unit :=
  ⟨[.stdout (label ++ " " ++ arg)], .value ()⟩

/-- The call `console.error(error)`. -/
def consoleError (error : JsError) : Run Unit :=
  ⟨[.stderr error], .value ()⟩

/-- The call `process.exit(code)`: it ends the process and never returns. -/
def processExit {α : Type} (code : Nat) : Run α :=
  ⟨[.exit code], .exited⟩

/-! ## The script -/

/-- The function `async function main()` of `deploy.js`, lines 3 to 18. -/
def main (ethers : Ethers) : Run Unit := do
  -- const [deployer] = await ethers.getSigners();
  let signers ← await .getSigners ethers.getSigners
  let deployer : Option Signer := signers.head?
  -- console.log("Deploying contracts with the account:", deployer.address);
  let deployerAddress ← address .deployer (deployer.map Signer.address)
  consoleLog "Deploying contracts with the account:" deployerAddress
  -- const CatDAOContract = await ethers.getContractFactory("CatDAOContract");
  let CatDAOContract ← await (.getContractFactory "CatDAOContract")
    (ethers.getContractFactory "CatDAOContract")
  -- const catDAO = await CatDAOContract.deploy();
  let catDAO ← await .deploy CatDAOContract.deploy
  -- console.log("CatDAO Contract Address:", catDAO.address);
  let catDAOAddress ← address .catDAO (some catDAO.address)
  consoleLog "CatDAO Contract Address:" catDAOAddress

/-- The top-level statement of `deploy.js`, lines 20 to 25:
`main().then(() => process.exit(0)).catch(error => { console.error(error); process.exit(1); })`. -/
def run (ethers : Ethers) : Run Unit :=
  ((main ethers).then_ fun _ => processExit 0).catch_ fun error => do
    consoleError error
    processExit 1

/-! ## Observations on a trace -/

/-- The lines written to standard output, in order. -/
def stdoutLines (t : List Event) : List String :=
  t.filterMap fun ev => match ev with
    | .stdout line => some line
    | _ => none

/-- The values written to standard error, in order. -/
def stderrValues (t : List Event) : List JsError :=
  t.filterMap fun ev => match ev with
    | .stderr e => some e
    | _ => none

/-- The codes of the calls of `process.exit`, in order. -/
def exitCalls (t : List Event) : List Nat :=
  t.filterMap fun ev => match ev with
    | .exit code => some code
    | _ => none

/-- The collaborator calls made, in order. -/
def calls (t : List Event) : List Call :=
  t.filterMap fun ev => match ev with
    | .call c => some c
    | _ => none

/-- The exit code of the process: the code of the `process.exit` call that
ended it, if one did. -/
def exitCode {α : Type} (r : Run α) : Option Nat :=
  match r.result with
  | .exited => (exitCalls r.trace).getLast?
  | _ => none

/-! ## Sample collaborators -/

/-- A signer provider whose promise is rejected. -/
def noProvider : Ethers where
  getSigners := .error (.rejection "could not detect network")
  getContractFactory := fun _ => .ok ⟨.ok ⟨"0x5FbDB2315678afecb367f032d93F642f64180aa3", true⟩⟩

/-- A provider with no account configured: `getSigners()` yields `[]`. -/
def noAccount : Ethers where
  getSigners := .ok []
  getContractFactory := fun _ => .ok ⟨.ok ⟨"0x5FbDB2315678afecb367f032d93F642f64180aa3", true⟩⟩

/-- Two accounts, but no artifact for the contract name: the factory promise
is rejected. -/
def noArtifact : Ethers where
  getSigners := .ok [⟨"0xf39Fd6e51aad88F6F4ce6aB8827279cffFb92266"⟩,
    ⟨"0x70997970C51812dc3A010C7d01b50e0d17dc79C8"⟩]
  getContractFactory := fun _ => .error (.rejection "HH700: Artifact not found")

/-- Two accounts and a factory whose deployment is rejected. -/
def noFunds : Ethers where
  getSigners := .ok [⟨"0xf39Fd6e51aad88F6F4ce6aB8827279cffFb92266"⟩,
    ⟨"0x70997970C51812dc3A010C7d01b50e0d17dc79C8"⟩]
  getContractFactory := fun _ => .ok ⟨.error (.rejection "insufficient funds")⟩

/-- Two accounts and a node that does not mine on its own: the promise of
`deploy()` is fulfilled when the transaction is sent, while it is pending. -/
def pendingNode : Ethers where
  getSigners := .ok [⟨"0xf39Fd6e51aad88F6F4ce6aB8827279cffFb92266"⟩,
    ⟨"0x70997970C51812dc3A010C7d01b50e0d17dc79C8"⟩]
  getContractFactory := fun _ => .ok ⟨.ok ⟨"0x5FbDB2315678afecb367f032d93F642f64180aa3", false⟩⟩

/-- Two accounts and a deployment that succeeds and is mined at once. -/
def localNode : Ethers where
  getSigners := .ok [⟨"0xf39Fd6e51aad88F6F4ce6aB8827279cffFb92266"⟩,
    ⟨"0x70997970C51812dc3A010C7d01b50e0d17dc79C8"⟩]
  getContractFactory := fun _ => .ok ⟨.ok ⟨"0x5FbDB2315678afecb367f032d93F642f64180aa3", true⟩⟩

/-! ## The five shapes of a run -/

/-- The run when `getSigners()` is rejected. -/
theorem run_getSigners_rejected (ethers : Ethers) (e : JsError)
    (hs : ethers.getSigners = .error e) :
    run ethers =
      ⟨[.call .getSigners, .rejected .getSigners, .stderr e, .exit 1], .exited⟩ := by
  simp [run, main, bind, Run.then_, Run.catch_, await, hs, consoleError, processExit]

/-- The run when `getSigners()` yields no signer. -/
theorem run_no_signer (ethers : Ethers) (hs : ethers.getSigners = .ok []) :
    run ethers =
      ⟨[.call .getSigners, .fulfilled .getSigners,
        .stderr (.typeErrorUndefined "address"), .exit 1], .exited⟩ := by
  simp [run, main, bind, Run.then_, Run.catch_, await, hs, address, consoleError,
    processExit]

/-- The run when the factory promise is rejected. -/
theorem run_factory_rejected (ethers : Ethers) (s : Signer) (rest : List Signer)
    (e : JsError) (hs : ethers.getSigners = .ok (s :: rest))
    (hf : ethers.getContractFactory "CatDAOContract" = .error e) :
    run ethers =
      ⟨[.call .getSigners, .fulfilled .getSigners, .getAddress .deployer,
        .stdout ("Deploying contracts with the account:" ++ " " ++ s.address),
        .call (.getContractFactory "CatDAOContract"),
        .rejected (.getContractFactory "CatDAOContract"),
        .stderr e, .exit 1], .exited⟩ := by
  simp [run, main, bind, Run.then_, Run.catch_, await, hs, hf, address, consoleLog,
    consoleError, processExit]

/-- The run when the deployment promise is rejected. -/
theorem run_deploy_rejected (ethers : Ethers) (s : Signer) (rest : List Signer)
    (f : ContractFactory) (e : JsError) (hs : ethers.getSigners = .ok (s :: rest))
    (hf : ethers.getContractFactory "CatDAOContract" = .ok f)
    (hd : f.deploy = .error e) :
    run ethers =
      ⟨[.call .getSigners, .fulfilled .getSigners, .getAddress .deployer,
        .stdout ("Deploying contracts with the account:" ++ " " ++ s.address),
        .call (.getContractFactory "CatDAOContract"),
        .fulfilled (.getContractFactory "CatDAOContract"),
        .call .deploy, .rejected .deploy,
        .stderr e, .exit 1], .exited⟩ := by
  simp [run, main, bind, Run.then_, Run.catch_, await, hs, hf, hd, address, consoleLog,
    consoleError, processExit]

/-- The run when all three collaborators succeed. -/
theorem run_deployed (ethers : Ethers) (s : Signer) (rest : List Signer)
    (f : ContractFactory) (c : Contract) (hs : ethers.getSigners = .ok (s :: rest))
    (hf : ethers.getContractFactory "CatDAOContract" = .ok f)
    (hd : f.deploy = .ok c) :
    run ethers =
      ⟨[.call .getSigners, .fulfilled .getSigners, .getAddress .deployer,
        .stdout ("Deploying contracts with the account:" ++ " " ++ s.address),
        .call (.getContractFactory "CatDAOContract"),
        .fulfilled (.getContractFactory "CatDAOContract"),
        .call .deploy, .fulfilled .deploy, .getAddress .catDAO,
        .stdout ("CatDAO Contract Address:" ++ " " ++ c.address),
        .exit 0], .exited⟩ := by
  simp [run, main, bind, Run.then_, Run.catch_, await, hs, hf, hd, address, consoleLog,
    processExit]

/-- The two labels differ, so the line of the deployer is never the line of the
contract, whatever the addresses. -/
theorem deployer_line_ne_catDAO_line (a b : String) :
    "Deploying contracts with the account:" ++ " " ++ a ≠
      "CatDAO Contract Address:" ++ " " ++ b := by
  intro h
  have hdata := congrArg String.data h
  simp only [String.data_append] at hdata
  simp at hdata

/-! ## Successful runs -/

/-- C1: when `getSigners()` yields at least one signer, the factory is resolved
and the deployment succeeds, standard output is exactly two lines, first the
line carrying the first signer's address, then the line carrying the deployed
contract's address; nothing is written to standard error; and the process is
ended by `process.exit(0)`, exit code 0. -/
theorem success_two_lines_exit_zero (ethers : Ethers) (s : Signer) (rest : List Signer)
    (f : ContractFactory) (c : Contract)
    (hs : ethers.getSigners = .ok (s :: rest))
    (hf : ethers.getContractFactory "CatDAOContract" = .ok f)
    (hd : f.deploy = .ok c) :
    stdoutLines (run ethers).trace =
        ["Deploying contracts with the account:" ++ " " ++ s.address,
         "CatDAO Contract Address:" ++ " " ++ c.address] ∧
      (stdoutLines (run ethers).trace).length = 2 ∧
      stderrValues (run ethers).trace = [] ∧
      (run ethers).result = .exited ∧
      exitCode (run ethers) = some 0 := by
  rw [run_deployed ethers s rest f c hs hf hd]
  simp [stdoutLines, stderrValues, exitCode, exitCalls]

/-- Witness of C1 on a local node with two accounts. -/
theorem success_two_lines_exit_zero_witness :
    stdoutLines (run localNode).trace =
        ["Deploying contracts with the account:" ++ " " ++
           "0xf39Fd6e51aad88F6F4ce6aB8827279cffFb92266",
         "CatDAO Contract Address:" ++ " " ++
           "0x5FbDB2315678afecb367f032d93F642f64180aa3"] ∧
      (stdoutLines (run localNode).trace).length = 2 ∧
      stderrValues (run localNode).trace = [] ∧
      (run localNode).result = .exited ∧
      exitCode (run localNode) = some 0 :=
  success_two_lines_exit_zero localNode
    ⟨"0xf39Fd6e51aad88F6F4ce6aB8827279cffFb92266"⟩
    [⟨"0x70997970C51812dc3A010C7d01b50e0d17dc79C8"⟩]
    ⟨.ok ⟨"0x5FbDB2315678afecb367f032d93F642f64180aa3", true⟩⟩
    ⟨"0x5FbDB2315678afecb367f032d93F642f64180aa3", true⟩ rfl rfl rfl

/-- C9: in a successful run the second standard-output line is the fixed label
"CatDAO Contract Address:", one blank, and then exactly the characters of the
address the deployed contract reports, nothing changed, dropped or added; and
the first line is the fixed label "Deploying contracts with the account:", one
blank, and exactly the characters of the first signer's address. -/
theorem printed_addresses_verbatim (ethers : Ethers) (s : Signer) (rest : List Signer)
    (f : ContractFactory) (c : Contract)
    (hs : ethers.getSigners = .ok (s :: rest))
    (hf : ethers.getContractFactory "CatDAOContract" = .ok f)
    (hd : f.deploy = .ok c) :
    ∃ first second, stdoutLines (run ethers).trace = [first, second] ∧
      first.data = "Deploying contracts with the account: ".data ++ s.address.data ∧
      first.data.drop 38 = s.address.data ∧
      second.data = "CatDAO Contract Address: ".data ++ c.address.data ∧
      second.data.drop 25 = c.address.data := by
  rw [run_deployed ethers s rest f c hs hf hd]
  refine ⟨"Deploying contracts with the account:" ++ " " ++ s.address,
    "CatDAO Contract Address:" ++ " " ++ c.address, rfl, ?_, ?_, ?_, ?_⟩ <;>
    simp only [String.data_append] <;> rfl

/-- Witness of C9 on a local node with two accounts. -/
theorem printed_addresses_verbatim_witness :
    ∃ first second, stdoutLines (run localNode).trace = [first, second] ∧
      first.data = "Deploying contracts with the account: ".data ++
        "0xf39Fd6e51aad88F6F4ce6aB8827279cffFb92266".data ∧
      first.data.drop 38 = "0xf39Fd6e51aad88F6F4ce6aB8827279cffFb92266".data ∧
      second.data = "CatDAO Contract Address: ".data ++
        "0x5FbDB2315678afecb367f032d93F642f64180aa3".data ∧
      second.data.drop 25 = "0x5FbDB2315678afecb367f032d93F642f64180aa3".data :=
  printed_addresses_verbatim localNode
    ⟨"0xf39Fd6e51aad88F6F4ce6aB8827279cffFb92266"⟩
    [⟨"0x70997970C51812dc3A010C7d01b50e0d17dc79C8"⟩]
    ⟨.ok ⟨"0x5FbDB2315678afecb367f032d93F642f64180aa3", true⟩⟩
    ⟨"0x5FbDB2315678afecb367f032d93F642f64180aa3", true⟩ rfl rfl rfl

/-! ## Exit codes -/

/-- C2: for every outcome of the three collaborators the exit code is 0 or 1;
it is 0 exactly when the deployment promise was fulfilled and the line with
the deployed contract's address was written to standard output; and it is 1
exactly when `main` ended with an error. -/
theorem exit_code_zero_iff_deployed (ethers : Ethers) :
    (exitCode (run ethers) = some 0 ∨ exitCode (run ethers) = some 1) ∧
    (exitCode (run ethers) = some 0 ↔
      ∃ f c, ethers.getContractFactory "CatDAOContract" = .ok f ∧ f.deploy = .ok c ∧
        Event.fulfilled .deploy ∈ (run ethers).trace ∧
        ("CatDAO Contract Address:" ++ " " ++ c.address) ∈
          stdoutLines (run ethers).trace) ∧
    (exitCode (run ethers) = some 1 ↔ ∃ e, (main ethers).result = .thrown e) := by
  rcases hs : ethers.getSigners with e | signers
  · rw [run_getSigners_rejected ethers e hs]
    simp [exitCode, exitCalls, main, bind, Run.then_, await, hs]
  · rcases signers with _ | ⟨s, rest⟩
    · rw [run_no_signer ethers hs]
      simp [exitCode, exitCalls, main, bind, Run.then_, await, hs, address]
    · rcases hf : ethers.getContractFactory "CatDAOContract" with e | f
      · rw [run_factory_rejected ethers s rest e hs hf]
        simp [exitCode, exitCalls, main, bind, Run.then_, await, hs, hf, address,
          consoleLog]
      · rcases hd : f.deploy with e | c
        · rw [run_deploy_rejected ethers s rest f e hs hf hd]
          simp [exitCode, exitCalls, main, bind, Run.then_, await, hs, hf, hd, address,
            consoleLog]
        · rw [run_deployed ethers s rest f c hs hf hd]
          simp [exitCode, exitCalls, stdoutLines, main, bind, Run.then_, await, hs, hf,
            hd, address, consoleLog]

/-! ## Failing runs -/

/-- C3: when `getSigners()` fails with an error, the script writes that error
to standard error, ends with exit code 1 and writes nothing to standard
output. -/
theorem getSigners_failure_no_stdout (ethers : Ethers) (e : JsError)
    (hs : ethers.getSigners = .error e) :
    stderrValues (run ethers).trace = [e] ∧
      exitCode (run ethers) = some 1 ∧
      stdoutLines (run ethers).trace = [] := by
  rw [run_getSigners_rejected ethers e hs]
  simp [stdoutLines, stderrValues, exitCode, exitCalls]

/-- Witness of C3 on a provider that cannot be reached. -/
theorem getSigners_failure_no_stdout_witness :
    stderrValues (run noProvider).trace = [.rejection "could not detect network"] ∧
      exitCode (run noProvider) = some 1 ∧
      stdoutLines (run noProvider).trace = [] :=
  getSigners_failure_no_stdout noProvider (.rejection "could not detect network") rfl

/-- C4, as stated, fails: with two accounts and a factory promise that is
rejected, the line with the first signer's address is already on standard
output when the error is caught, so standard output is not empty. -/
theorem factory_failure_prints_first_line :
    noArtifact.getSigners = .ok [⟨"0xf39Fd6e51aad88F6F4ce6aB8827279cffFb92266"⟩,
        ⟨"0x70997970C51812dc3A010C7d01b50e0d17dc79C8"⟩] ∧
      noArtifact.getContractFactory "CatDAOContract" =
        .error (.rejection "HH700: Artifact not found") ∧
      stdoutLines (run noArtifact).trace =
        ["Deploying contracts with the account: 0xf39Fd6e51aad88F6F4ce6aB8827279cffFb92266"] ∧
      stdoutLines (run noArtifact).trace ≠ [] := by
  refine ⟨rfl, rfl, ?_, ?_⟩ <;>
    simp [run_factory_rejected noArtifact ⟨"0xf39Fd6e51aad88F6F4ce6aB8827279cffFb92266"⟩
      [⟨"0x70997970C51812dc3A010C7d01b50e0d17dc79C8"⟩]
      (.rejection "HH700: Artifact not found") rfl rfl, stdoutLines]

/-- C4, amended: when `getSigners()` succeeds but the factory promise or the
deployment promise is rejected, the script writes once to standard error and
ends with exit code 1; standard output holds only the line with the first
signer's address (nothing when the list of signers is empty), and the line of
the deployed contract is never written. -/
theorem later_failure_keeps_first_line (ethers : Ethers) (signers : List Signer)
    (e : JsError) (hs : ethers.getSigners = .ok signers)
    (hfail : ethers.getContractFactory "CatDAOContract" = .error e ∨
      ∃ f, ethers.getContractFactory "CatDAOContract" = .ok f ∧ f.deploy = .error e) :
    (stderrValues (run ethers).trace).length = 1 ∧
      exitCode (run ethers) = some 1 ∧
      stdoutLines (run ethers).trace =
        (signers.head?.map fun s =>
          "Deploying contracts with the account:" ++ " " ++ s.address).toList ∧
      Event.getAddress .catDAO ∉ (run ethers).trace := by
  rcases signers with _ | ⟨s, rest⟩
  · rw [run_no_signer ethers hs]
    simp [stdoutLines, stderrValues, exitCode, exitCalls]
  · rcases hfail with hf | ⟨f, hf, hd⟩
    · rw [run_factory_rejected ethers s rest e hs hf]
      simp [stdoutLines, stderrValues, exitCode, exitCalls]
    · rw [run_deploy_rejected ethers s rest f e hs hf hd]
      simp [stdoutLines, stderrValues, exitCode, exitCalls]

/-- Witness of the amended C4 on a deployment rejected for lack of funds. -/
theorem later_failure_keeps_first_line_witness :
    (stderrValues (run noFunds).trace).length = 1 ∧
      exitCode (run noFunds) = some 1 ∧
      stdoutLines (run noFunds).trace =
        (([⟨"0xf39Fd6e51aad88F6F4ce6aB8827279cffFb92266"⟩,
            ⟨"0x70997970C51812dc3A010C7d01b50e0d17dc79C8"⟩] : List Signer).head?.map
          fun s => "Deploying contracts with the account:" ++ " " ++ s.address).toList ∧
      Event.getAddress .catDAO ∉ (run noFunds).trace :=
  later_failure_keeps_first_line noFunds _ (.rejection "insufficient funds") rfl
    (Or.inr ⟨⟨.error (.rejection "insufficient funds")⟩, rfl, rfl⟩)

/-- C6: when a collaborator step raises an error `e` (the signer promise, or,
with at least one signer, the factory promise or the deployment promise is
rejected with `e`), the value written to standard error is exactly `e`, it is
written exactly once, after `main` ended with `e` itself, and the process exits
with the non-zero code 1. -/
theorem raised_error_reported_verbatim (ethers : Ethers) (e : JsError)
    (hraise : ethers.getSigners = .error e ∨
      ∃ s rest, ethers.getSigners = .ok (s :: rest) ∧
        (ethers.getContractFactory "CatDAOContract" = .error e ∨
          ∃ f, ethers.getContractFactory "CatDAOContract" = .ok f ∧
            f.deploy = .error e)) :
    (main ethers).result = .thrown e ∧
      stderrValues (run ethers).trace = [e] ∧
      (∃ code, exitCode (run ethers) = some code ∧ code ≠ 0) := by
  rcases hraise with hs | ⟨s, rest, hs, hf | ⟨f, hf, hd⟩⟩
  · rw [run_getSigners_rejected ethers e hs]
    simp [stderrValues, exitCode, exitCalls, main, bind, Run.then_, await, hs]
  · rw [run_factory_rejected ethers s rest e hs hf]
    simp [stderrValues, exitCode, exitCalls, main, bind, Run.then_, await, hs, hf,
      address, consoleLog]
  · rw [run_deploy_rejected ethers s rest f e hs hf hd]
    simp [stderrValues, exitCode, exitCalls, main, bind, Run.then_, await, hs, hf, hd,
      address, consoleLog]

/-- Witness of C6 on a factory promise rejected for a missing artifact. -/
theorem raised_error_reported_verbatim_witness :
    (main noArtifact).result = .thrown (.rejection "HH700: Artifact not found") ∧
      stderrValues (run noArtifact).trace = [.rejection "HH700: Artifact not found"] ∧
      (∃ code, exitCode (run noArtifact) = some code ∧ code ≠ 0) :=
  raised_error_reported_verbatim noArtifact (.rejection "HH700: Artifact not found")
    (Or.inr ⟨_, _, rfl, Or.inl rfl⟩)

/-! ## Order and number of the steps -/

/-- C5, as stated, fails: on a node that leaves the deployment transaction
pending, `deploy()` is fulfilled with a contract whose transaction is not mined,
and the very next steps of the script read `catDAO.address` and print it; the
run makes no collaborator call after `deploy`, and exits with code 0.  The
address is read and printed before the deployment is confirmed. -/
theorem address_printed_before_confirmation :
    (∃ f c, pendingNode.getContractFactory "CatDAOContract" = .ok f ∧
      f.deploy = .ok c ∧ c.mined = false) ∧
      (run pendingNode).trace[6]? = some (.call .deploy) ∧
      (run pendingNode).trace[7]? = some (.fulfilled .deploy) ∧
      (run pendingNode).trace[8]? = some (.getAddress .catDAO) ∧
      (run pendingNode).trace[9]? = some
        (.stdout "CatDAO Contract Address: 0x5FbDB2315678afecb367f032d93F642f64180aa3") ∧
      calls (run pendingNode).trace =
        [.getSigners, .getContractFactory "CatDAOContract", .deploy] ∧
      exitCode (run pendingNode) = some 0 := by
  refine ⟨⟨_, _, rfl, rfl, rfl⟩, ?_⟩
  rw [run_deployed pendingNode ⟨"0xf39Fd6e51aad88F6F4ce6aB8827279cffFb92266"⟩
    [⟨"0x70997970C51812dc3A010C7d01b50e0d17dc79C8"⟩]
    ⟨.ok ⟨"0x5FbDB2315678afecb367f032d93F642f64180aa3", false⟩⟩
    ⟨"0x5FbDB2315678afecb367f032d93F642f64180aa3", false⟩ rfl rfl rfl]
  simp [calls, exitCode, exitCalls]

/-- C5, amended: for every outcome of the collaborators, the expression
`catDAO.address` is evaluated, and the line carrying the contract's address is
printed, only after `deploy()` was called and the promise it returned, which
the script awaits, was fulfilled; the address is read as the very next step
after that fulfilment, with no further wait in between. -/
theorem contract_address_after_deploy_fulfilled (ethers : Ethers) (i : Nat) (a : String)
    (hi : (run ethers).trace[i]? = some (.getAddress .catDAO) ∨
      (run ethers).trace[i]? = some (.stdout ("CatDAO Contract Address:" ++ " " ++ a))) :
    ∃ j k, j < k ∧ k < i ∧
      (run ethers).trace[j]? = some (.call .deploy) ∧
      (run ethers).trace[k]? = some (.fulfilled .deploy) ∧
      (run ethers).trace[k + 1]? = some (.getAddress .catDAO) := by
  have hne := fun x => deployer_line_ne_catDAO_line x a
  rcases hs : ethers.getSigners with e | signers
  · rw [run_getSigners_rejected ethers e hs] at hi
    rcases i with _ | _ | _ | _ | i <;> simp at hi
  · rcases signers with _ | ⟨s, rest⟩
    · rw [run_no_signer ethers hs] at hi
      rcases i with _ | _ | _ | _ | i <;> simp at hi
    · rcases hf : ethers.getContractFactory "CatDAOContract" with e | f
      · rw [run_factory_rejected ethers s rest e hs hf] at hi
        rcases i with _ | _ | _ | _ | _ | _ | _ | _ | i <;> simp at hi
        exact absurd hi (hne _)
      · rcases hd : f.deploy with e | c
        · rw [run_deploy_rejected ethers s rest f e hs hf hd] at hi
          rcases i with _ | _ | _ | _ | _ | _ | _ | _ | _ | _ | i <;> simp at hi
          exact absurd hi (hne _)
        · rw [run_deployed ethers s rest f c hs hf hd] at hi ⊢
          rcases i with _ | _ | _ | _ | _ | _ | _ | _ | _ | _ | _ | i <;> simp at hi
          · exact absurd hi (hne _)
          · exact ⟨6, 7, by omega, by omega, rfl, rfl, rfl⟩
          · exact ⟨6, 7, by omega, by omega, rfl, rfl, rfl⟩

/-- Witness of the amended C5 on a local node: the address is read at
position 8. -/
theorem contract_address_after_deploy_fulfilled_witness :
    (run localNode).trace[8]? = some (.getAddress .catDAO) ∧
      ∃ j k, j < k ∧ k < 8 ∧
        (run localNode).trace[j]? = some (.call .deploy) ∧
        (run localNode).trace[k]? = some (.fulfilled .deploy) ∧
        (run localNode).trace[k + 1]? = some (.getAddress .catDAO) :=
  ⟨rfl, contract_address_after_deploy_fulfilled localNode 8 "" (Or.inl rfl)⟩

/-- C7, as stated, fails: when the signer promise is rejected the run makes no
deployment attempt at all, not exactly one. -/
theorem getSigners_failure_no_deploy_attempt :
    noProvider.getSigners = .error (.rejection "could not detect network") ∧
      calls (run noProvider).trace = [.getSigners] ∧
      (calls (run noProvider).trace).count .deploy = 0 := by
  refine ⟨rfl, ?_, ?_⟩ <;>
    simp [run_getSigners_rejected noProvider (.rejection "could not detect network") rfl,
      calls]

/-- C7, amended: for every outcome of the collaborators one run calls `deploy`
at most once; it calls it exactly once when `getSigners()` yields at least one
signer and the factory is resolved, and not at all otherwise; and a run whose
deployment promise was rejected still made exactly one attempt, never a
second. -/
theorem at_most_one_deploy_attempt (ethers : Ethers) :
    (calls (run ethers).trace).count .deploy ≤ 1 ∧
    ((calls (run ethers).trace).count .deploy = 1 ↔
      ∃ s rest f, ethers.getSigners = .ok (s :: rest) ∧
        ethers.getContractFactory "CatDAOContract" = .ok f) ∧
    (Event.rejected .deploy ∈ (run ethers).trace →
      (calls (run ethers).trace).count .deploy = 1) := by
  rcases hs : ethers.getSigners with e | signers
  · rw [run_getSigners_rejected ethers e hs]
    simp [calls]
  · rcases signers with _ | ⟨s, rest⟩
    · rw [run_no_signer ethers hs]
      simp [calls]
    · rcases hf : ethers.getContractFactory "CatDAOContract" with e | f
      · rw [run_factory_rejected ethers s rest e hs hf]
        simp [calls]
      · rcases hd : f.deploy with e | c
        · rw [run_deploy_rejected ethers s rest f e hs hf hd]
          simp [calls]
        · rw [run_deployed ethers s rest f c hs hf hd]
          simp [calls]

/-- C8: for every outcome of the collaborators the script calls `process.exit`
exactly once, with 0 or with 1; in particular never with 0 and then with 1. -/
theorem process_exit_called_once (ethers : Ethers) :
    (exitCalls (run ethers).trace).length ≤ 1 ∧
    (exitCalls (run ethers).trace = [0] ∨ exitCalls (run ethers).trace = [1]) ∧
    ¬ List.Sublist [0, 1] (exitCalls (run ethers).trace) := by
  have hlen : ∀ l : List Nat, l.length = 1 → ¬ List.Sublist [0, 1] l := by
    intro l hl hsub
    have := hsub.length_le
    simp [hl] at this
  rcases hs : ethers.getSigners with e | signers
  · rw [run_getSigners_rejected ethers e hs]
    refine ⟨?_, ?_, hlen _ ?_⟩ <;> simp [exitCalls]
  · rcases signers with _ | ⟨s, rest⟩
    · rw [run_no_signer ethers hs]
      refine ⟨?_, ?_, hlen _ ?_⟩ <;> simp [exitCalls]
    · rcases hf : ethers.getContractFactory "CatDAOContract" with e | f
      · rw [run_factory_rejected ethers s rest e hs hf]
        refine ⟨?_, ?_, hlen _ ?_⟩ <;> simp [exitCalls]
      · rcases hd : f.deploy with e | c
        · rw [run_deploy_rejected ethers s rest f e hs hf hd]
          refine ⟨?_, ?_, hlen _ ?_⟩ <;> simp [exitCalls]
        · rw [run_deployed ethers s rest f c hs hf hd]
          refine ⟨?_, ?_, hlen _ ?_⟩ <;> simp [exitCalls]

/-! ## The list of signers -/

/-- C10: when `getSigners()` succeeds with an empty list, reading the address
of the missing first signer throws before anything is printed: `main` ends
with that TypeError and an empty standard output, the only collaborator call of
the run is `getSigners` (neither the factory nor `deploy` is called), the
TypeError is what is written to standard error, and the exit code is 1.  When
the list is not empty, the whole run is the same whatever signers follow the
first. -/
theorem no_signer_throws_first_signer_decides
    (getContractFactory : String → Except JsError ContractFactory) :
    ((main ⟨.ok [], getContractFactory⟩).result = .thrown (.typeErrorUndefined "address") ∧
      stdoutLines (main ⟨.ok [], getContractFactory⟩).trace = [] ∧
      stdoutLines (run ⟨.ok [], getContractFactory⟩).trace = [] ∧
      calls (run ⟨.ok [], getContractFactory⟩).trace = [.getSigners] ∧
      stderrValues (run ⟨.ok [], getContractFactory⟩).trace =
        [.typeErrorUndefined "address"] ∧
      exitCode (run ⟨.ok [], getContractFactory⟩) = some 1) ∧
    ∀ (s : Signer) (rest others : List Signer),
      run ⟨.ok (s :: rest), getContractFactory⟩ =
        run ⟨.ok (s :: others), getContractFactory⟩ := by
  refine ⟨?_, ?_⟩
  · rw [run_no_signer ⟨.ok [], getContractFactory⟩ rfl]
    simp [stdoutLines, stderrValues, calls, exitCode, exitCalls, main, bind, Run.then_,
      await, address]
  · intro s rest others
    rcases hf : getContractFactory "CatDAOContract" with e | f
    · rw [run_factory_rejected ⟨.ok (s :: rest), getContractFactory⟩ s rest e rfl hf,
        run_factory_rejected ⟨.ok (s :: others), getContractFactory⟩ s others e rfl hf]
    · rcases hd : f.deploy with e | c
      · rw [run_deploy_rejected ⟨.ok (s :: rest), getContractFactory⟩ s rest f e rfl hf hd,
          run_deploy_rejected ⟨.ok (s :: others), getContractFactory⟩ s others f e rfl hf
            hd]
      · rw [run_deployed ⟨.ok (s :: rest), getContractFactory⟩ s rest f c rfl hf hd,
          run_deployed ⟨.ok (s :: others), getContractFactory⟩ s others f c rfl hf hd]

end Deploy
